import Mathlib

/-!
Shallow embedding of `demo-apps/ghost-cdk/ghost_example.py`.

The script builds a declarative resource graph: an RDS database, conditional
security rules and manifests keyed on two string-typed context flags
(`deploy_external_secrets`, `deploy_sgp`), an ExternalSecret mapping manifest,
and deployment/service/ingress manifests, plus the account/region resolution
logic at module level (lines 218-231 of the source).
-/

namespace GhostCdk

/-- Security groups appearing in the script: the RDS security group
(`Ghost-DB-SG`, line 23), the pod security group (`Ghost-Pod-SG`, line 115),
the imported cluster security group (`eks_cluster.cluster_security_group`,
line 149) and the kubectl security group (`eks_cluster.kubectl_security_group`,
line 140, imported as `EKSSGID` at line 58). -/
inductive SGRef where
  | ghostDbSG
  | ghostPodSG
  | clusterSG
  | kubectlSG
  deriving DecidableEq, Repr

/-- An ingress rule created by `security_group.connections.allow_from(other, port)`
(lines 121-122 and 148-149): traffic from `source` may reach `dest` on `port`. -/
structure SecurityRule where
  source : SGRef
  dest : SGRef
  port : Nat
  deriving DecidableEq, Repr

/-- Removal policies of `core.RemovalPolicy` relevant to the script. -/
inductive RemovalPolicy where
  | destroy
  | retain
  deriving DecidableEq, Repr

/-- The RDS database instance description (`rds.DatabaseInstance`, lines 30-45). -/
structure DatabaseNode where
  deletionProtection : Bool
  removalPolicy : RemovalPolicy
  multiAz : Bool
  allocatedStorage : Nat
  engineVersion : String
  username : String
  databaseName : String
  securityGroups : List SGRef
  deriving DecidableEq, Repr

/-- An IAM policy statement as written in
`externalsecrets_policy_statement_json_1` (lines 73-84). -/
structure PolicyStatement where
  effect : String
  actions : List String
  resources : List String
  deriving DecidableEq, Repr

/-- A service account plus the policy statements attached to it
(`eks_cluster.add_service_account` at lines 66-70 followed by
`add_to_policy` at lines 87-88). -/
structure AccessBinding where
  serviceAccountName : String
  saNamespace : String
  policyStatements : List PolicyStatement
  deriving DecidableEq, Repr

/-- One entry of the ExternalSecret `data` list (lines 161-182). -/
structure SecretDataEntry where
  key : String
  name : String
  property : String
  deriving DecidableEq, Repr

/-- Identifiers of the graph nodes the script creates.  `rds` is the database
(line 30); the others are the manifest / helm-chart nodes with their CDK ids
(`external-secrets` line 92, `GhostSGP` line 125, `GhostExternalSecret`
line 152, `GhostDeploymentManifest` line 196, `GhostServiceManifest` line 206,
`GhostIngressManifest` line 215). -/
inductive NodeId where
  | rds
  | externalSecretsChart
  | ghostSGP
  | ghostExternalSecret
  | ghostDeployment
  | ghostService
  | ghostIngress
  deriving DecidableEq, Repr

/-- The payload of a manifest-like node. -/
inductive Payload where
  | helmChart (chart : String) (version : String) (repository : String)
      (chartNamespace : String) (release : String)
  | sgpManifest (matchLabels : List (String × String)) (groupIds : List SGRef)
  | externalSecret (backendType : String) (data : List SecretDataEntry)
  | yamlFile (fileName : String)
  deriving DecidableEq, Repr

/-- A node submitted to the cluster, with the explicit dependency edges added
via `node.add_dependency` (lines 186 and 197). -/
structure ManifestNode where
  id : NodeId
  payload : Payload
  deps : List NodeId
  deriving DecidableEq, Repr

/-- The CDK context values the script reads via `try_get_context`:
`account` and `region` (lines 219, 225) and the two feature flags
(lines 63, 113 and 185).  `none` models an absent key (Python `None`). -/
structure GhostContext where
  account : Option String
  region : Option String
  deploy_external_secrets : Option String
  deploy_sgp : Option String
  deriving DecidableEq, Repr

/-- The process environment variables the script reads (lines 222-223, 228-229). -/
structure Environ where
  CDK_DEPLOY_ACCOUNT : Option String
  CDK_DEFAULT_ACCOUNT : Option String
  CDK_DEPLOY_REGION : Option String
  CDK_DEFAULT_REGION : Option String
  deriving DecidableEq, Repr

/-- Placeholder for the token `ghost_rds.secret.secret_name` (lines 163-178):
the name of the database's generated connection secret. -/
def ghost_rds_secret_name : String := "GhostStack/RDS/Secret"

/-- `self.node.try_get_context("deploy_external_secrets") == "True"`
(lines 63 and 185).  Python `None == "True"` is `False`, so only the exact
string `"True"` enables the branch. -/
def deployExternalSecretsEnabled (ctx : GhostContext) : Bool :=
  ctx.deploy_external_secrets == some "True"

/-- `self.node.try_get_context("deploy_sgp") == "True"` (line 113). -/
def deploySgpEnabled (ctx : GhostContext) : Bool :=
  ctx.deploy_sgp == some "True"

/-- The MySQL RDS instance (`ghost_rds`, lines 30-45): deletion protection off,
removal policy DESTROY, single-AZ, 20 GiB, MySQL 8.0.25, username `root`,
database `ghost`, member of the `Ghost-DB-SG` security group only. -/
def ghost_rds : DatabaseNode where
  deletionProtection := false
  removalPolicy := RemovalPolicy.destroy
  multiAz := false
  allocatedStorage := 20
  engineVersion := "8.0.25"
  username := "root"
  databaseName := "ghost"
  securityGroups := [SGRef.ghostDbSG]

/-- The policy statement JSON (lines 73-84). -/
def externalsecrets_policy_statement_json_1 : PolicyStatement where
  effect := "Allow"
  actions :=
    ["secretsmanager:GetResourcePolicy",
     "secretsmanager:GetSecretValue",
     "secretsmanager:DescribeSecret",
     "secretsmanager:ListSecretVersionIds"]
  resources := ["*"]

/-- The `kubernetes-external-secrets` service account in `kube-system`
(lines 66-70) with the secrets-manager policy attached (lines 87-88). -/
def externalsecrets_service_account : AccessBinding where
  serviceAccountName := "kubernetes-external-secrets"
  saNamespace := "kube-system"
  policyStatements := [externalsecrets_policy_statement_json_1]

/-- The `kubernetes-external-secrets` helm chart node
(`external_secrets_chart`, lines 91-110). -/
def external_secrets_chart : ManifestNode where
  id := NodeId.externalSecretsChart
  payload := Payload.helmChart "kubernetes-external-secrets" "8.3.0"
    "https://external-secrets.github.io/kubernetes-external-secrets/"
    "kube-system" "external-secrets"
  deps := []

/-- The SecurityGroupPolicy manifest (`sgp`, lines 125-144): pods matching
`app: ghost` are bound to the pod security group and the cluster's kubectl
security group (lines 138-141). -/
def sgp : ManifestNode where
  id := NodeId.ghostSGP
  payload := Payload.sgpManifest [("app", "ghost")]
    [SGRef.ghostPodSG, SGRef.kubectlSG]
  deps := []

/-- The ExternalSecret manifest (`ghost_external_secret`, lines 152-184),
mapping the four fields of the database's generated secret, with the
dependency on the helm chart added at line 186 exactly when
`deploy_external_secrets` is `"True"` (line 185). -/
def ghost_external_secret (extEnabled : Bool) : ManifestNode where
  id := NodeId.ghostExternalSecret
  payload := Payload.externalSecret "secretsManager"
    [{ key := ghost_rds_secret_name, name := "password", property := "password" },
     { key := ghost_rds_secret_name, name := "dbname", property := "dbname" },
     { key := ghost_rds_secret_name, name := "host", property := "host" },
     { key := ghost_rds_secret_name, name := "username", property := "username" }]
  deps := if extEnabled then [NodeId.externalSecretsChart] else []

/-- The deployment manifest (lines 195-197), depending on
`ghost_external_secret` via `add_dependency` at line 197. -/
def ghost_deployment_manifest : ManifestNode where
  id := NodeId.ghostDeployment
  payload := Payload.yamlFile "ghost-deployment.yaml"
  deps := [NodeId.ghostExternalSecret]

/-- The service manifest (line 206); no `add_dependency` call. -/
def ghost_service_manifest : ManifestNode where
  id := NodeId.ghostService
  payload := Payload.yamlFile "ghost-service.yaml"
  deps := []

/-- The ingress manifest (line 215); no `add_dependency` call. -/
def ghost_ingress_manifest : ManifestNode where
  id := NodeId.ghostIngress
  payload := Payload.yamlFile "ghost-ingress.yaml"
  deps := []

/-- The resource graph assembled by `GhostStack.__init__`. -/
structure GhostGraph where
  databases : List DatabaseNode
  securityGroups : List SGRef
  securityRules : List SecurityRule
  accessBindings : List AccessBinding
  manifests : List ManifestNode
  deriving DecidableEq, Repr

/-- `GhostStack.__init__` (lines 16-215) as a graph builder.  The database and
its security group are unconditional (lines 23-45).  When
`deploy_external_secrets == "True"` the service account binding and the helm
chart are added (lines 63-110).  When `deploy_sgp == "True"` the pod security
group, the pod-to-database rule and the SGP manifest are added (lines 113-144);
otherwise the cluster-to-database rule is added (lines 146-149).  The
ExternalSecret, deployment, service and ingress manifests follow
unconditionally (lines 152-215). -/
def graphOf (ext sgpOn : Bool) : GhostGraph :=
  { databases := [ghost_rds]
    securityGroups :=
      [SGRef.ghostDbSG] ++ (if sgpOn then [SGRef.ghostPodSG] else [])
    securityRules :=
      if sgpOn then
        [{ source := SGRef.ghostPodSG, dest := SGRef.ghostDbSG, port := 3306 }]
      else
        [{ source := SGRef.clusterSG, dest := SGRef.ghostDbSG, port := 3306 }]
    accessBindings := if ext then [externalsecrets_service_account] else []
    manifests :=
      (if ext then [external_secrets_chart] else []) ++
      (if sgpOn then [sgp] else []) ++
      [ghost_external_secret ext, ghost_deployment_manifest,
       ghost_service_manifest, ghost_ingress_manifest] }

/-- The graph built for a given context: the two branch conditions are the
string comparisons at lines 63/185 and 113. -/
def buildGraph (ctx : GhostContext) : GhostGraph :=
  graphOf (deployExternalSecretsEnabled ctx) (deploySgpEnabled ctx)

/-- Errors aborting the module-level account/region resolution:
`attributeError` models `None.strip()` when `try_get_context` returned no
value (lines 219, 225); `keyError` models `os.environ["CDK_DEFAULT_*"]` with
the variable absent (lines 223, 229). -/
inductive ResolveError where
  | attributeError
  | keyError
  deriving DecidableEq, Repr

/-- Python's `str.strip()` (no argument): remove leading and trailing
whitespace.  Written over the character list so it reduces in the kernel. -/
def pyStrip (s : String) : String :=
  String.mk
    (((s.data.dropWhile Char.isWhitespace).reverse.dropWhile
        Char.isWhitespace).reverse)

/-- Lines 219-229 for one of the two settings.  A missing context value makes
`.strip()` raise.  A non-blank value is used as-is.  On the blank path,
`os.environ.get("CDK_DEPLOY_*", os.environ["CDK_DEFAULT_*"])` evaluates its
default argument first, so an absent `CDK_DEFAULT_*` raises `KeyError` even
when `CDK_DEPLOY_*` is set; otherwise the deploy variable wins when present. -/
def resolveSetting (ctxVal deployEnv defaultEnv : Option String) :
    Except ResolveError String :=
  match ctxVal with
  | none => Except.error ResolveError.attributeError
  | some v =>
    if pyStrip v != "" then Except.ok v
    else
      match defaultEnv with
      | none => Except.error ResolveError.keyError
      | some a =>
        match deployEnv with
        | some d => Except.ok d
        | none => Except.ok a

/-- The module-level program (lines 218-232): resolve `account`, then
`region`, and only then construct the stack's resource graph. -/
def runApp (ctx : GhostContext) (env : Environ) :
    Except ResolveError GhostGraph :=
  match resolveSetting ctx.account env.CDK_DEPLOY_ACCOUNT env.CDK_DEFAULT_ACCOUNT with
  | Except.error e => Except.error e
  | Except.ok _ =>
    match resolveSetting ctx.region env.CDK_DEPLOY_REGION env.CDK_DEFAULT_REGION with
    | Except.error e => Except.error e
    | Except.ok _ => Except.ok (buildGraph ctx)

/-- The pod-level security path (lines 113-144): the pod security group
exists, the rule lets it reach the database on 3306, and the `GhostSGP`
pod-selector manifest is present. -/
def podLevelPath (g : GhostGraph) : Prop :=
  SGRef.ghostPodSG ∈ g.securityGroups ∧
  ({ source := SGRef.ghostPodSG, dest := SGRef.ghostDbSG, port := 3306 } :
      SecurityRule) ∈ g.securityRules ∧
  ∃ m ∈ g.manifests, m.id = NodeId.ghostSGP

/-- The cluster-level security path (lines 146-149): the only security rule
lets the cluster security group reach the database on 3306, and no pod-level
`GhostSGP` manifest exists. -/
def clusterLevelPath (g : GhostGraph) : Prop :=
  g.securityRules =
    [{ source := SGRef.clusterSG, dest := SGRef.ghostDbSG, port := 3306 }] ∧
  ∀ m ∈ g.manifests, m.id ≠ NodeId.ghostSGP

instance (g : GhostGraph) : Decidable (podLevelPath g) := by
  unfold podLevelPath
  infer_instance

instance (g : GhostGraph) : Decidable (clusterLevelPath g) := by
  unfold clusterLevelPath
  infer_instance

/-- `true` when the manifest's payload carries an entry keyed to the
database's generated secret (the ExternalSecret data entries, lines 161-182). -/
def referencesDbSecret (m : ManifestNode) : Bool :=
  match m.payload with
  | Payload.externalSecret _ data =>
      data.any (fun e => e.key == ghost_rds_secret_name)
  | _ => false

/-- Example contexts and environment used to instantiate the theorems. -/
def ctxBothTrue : GhostContext :=
  { account := some "111111111111", region := some "us-east-1",
    deploy_external_secrets := some "True", deploy_sgp := some "True" }

/-- Context enabling only the SGP feature. -/
def ctxSgpOnly : GhostContext :=
  { account := some "111111111111", region := some "us-east-1",
    deploy_external_secrets := none, deploy_sgp := some "True" }

/-- Context enabling only the external-secrets feature. -/
def ctxExtOnly : GhostContext :=
  { account := some "111111111111", region := some "us-east-1",
    deploy_external_secrets := some "True", deploy_sgp := none }

/-- Context whose `account` key is absent. -/
def ctxNoAccount : GhostContext :=
  { account := none, region := some "us-east-1",
    deploy_external_secrets := none, deploy_sgp := none }

/-- Environment with all four variables set. -/
def envAllSet : Environ :=
  { CDK_DEPLOY_ACCOUNT := some "111111111111",
    CDK_DEFAULT_ACCOUNT := some "222222222222",
    CDK_DEPLOY_REGION := some "us-west-2",
    CDK_DEFAULT_REGION := some "us-east-1" }

/-- C1: for every value of `deploy_sgp`, the graph realises exactly one of
the pod-level path (pod security group + pod-to-database rule on 3306 +
`GhostSGP` manifest) and the cluster-level path (a single
cluster-to-database rule on 3306, no pod-level manifest) — never both,
never neither. -/
theorem securityRulePaths_exclusive_exhaustive (ctx : GhostContext) :
    (podLevelPath (buildGraph ctx) ∧ ¬ clusterLevelPath (buildGraph ctx)) ∨
    (clusterLevelPath (buildGraph ctx) ∧ ¬ podLevelPath (buildGraph ctx)) := by
  cases he : deployExternalSecretsEnabled ctx <;>
    cases hs : deploySgpEnabled ctx <;>
      simp only [buildGraph, he, hs] <;> decide

/-- C2: the workload-identity binding and the secret-sync helm-chart node are
created iff `deploy_external_secrets` is the string `"True"`, and the
secret-mapping node's explicit dependency edge to the chart exists iff the
flag is `"True"`. -/
theorem externalSecrets_feature_iff_flag (ctx : GhostContext) :
    ((buildGraph ctx).accessBindings = [externalsecrets_service_account] ↔
      ctx.deploy_external_secrets = some "True") ∧
    ((buildGraph ctx).accessBindings ≠ [] ↔
      ctx.deploy_external_secrets = some "True") ∧
    ((∃ m ∈ (buildGraph ctx).manifests, m.id = NodeId.externalSecretsChart) ↔
      ctx.deploy_external_secrets = some "True") ∧
    ghost_external_secret (deployExternalSecretsEnabled ctx) ∈
      (buildGraph ctx).manifests ∧
    (NodeId.externalSecretsChart ∈
        (ghost_external_secret (deployExternalSecretsEnabled ctx)).deps ↔
      ctx.deploy_external_secrets = some "True") := by
  have hflag : (deployExternalSecretsEnabled ctx = true) ↔
      ctx.deploy_external_secrets = some "True" := by
    simp [deployExternalSecretsEnabled]
  simp only [← hflag]
  cases he : deployExternalSecretsEnabled ctx <;>
    cases hs : deploySgpEnabled ctx <;>
      simp only [buildGraph, he, hs] <;> decide

/-- C3 counterexample: with both flags `"True"`, the secret-mapping manifest
references the database's generated secret but its explicit dependency list
does not contain the database node — the source only ever calls
`add_dependency` with the helm chart (line 186) and the secret-mapping node
(line 197), never with `ghost_rds`. -/
theorem secretMapping_no_explicit_db_edge_cex :
    ∃ m ∈ (buildGraph ctxBothTrue).manifests,
      referencesDbSecret m = true ∧ NodeId.rds ∉ m.deps := by
  decide

/-- C3 amended: every manifest referencing the database's generated secret
carries an explicit dependency edge to the secret-sync chart exactly when the
external-secrets feature is enabled, but carries no explicit dependency edge
to the DatabaseNode; its ordering after the database relies on the implicit
reference to the generated secret, not on an explicit edge. -/
theorem secretMapping_explicit_edges_amended (ctx : GhostContext) :
    ∀ m ∈ (buildGraph ctx).manifests, referencesDbSecret m = true →
      NodeId.rds ∉ m.deps ∧
      (NodeId.externalSecretsChart ∈ m.deps ↔
        ctx.deploy_external_secrets = some "True") := by
  have hflag : (deployExternalSecretsEnabled ctx = true) ↔
      ctx.deploy_external_secrets = some "True" := by
    simp [deployExternalSecretsEnabled]
  simp only [← hflag]
  cases he : deployExternalSecretsEnabled ctx <;>
    cases hs : deploySgpEnabled ctx <;>
      simp only [buildGraph, he, hs] <;> decide

/-- C3 amended, instantiated: the secret-mapping node of the
both-flags-enabled graph has no database edge and does have the chart edge. -/
theorem secretMapping_explicit_edges_amended_witness :
    NodeId.rds ∉ (ghost_external_secret true).deps ∧
    (NodeId.externalSecretsChart ∈ (ghost_external_secret true).deps ↔
      ctxBothTrue.deploy_external_secrets = some "True") :=
  secretMapping_explicit_edges_amended ctxBothTrue
    (ghost_external_secret true) (by decide) (by decide)

/-- C4: for every flag combination the `GhostExternalSecret` manifest occurs
exactly once, and its payload holds exactly the four entries named
`password`, `dbname`, `host`, `username`, each keyed to the database's
generated secret. -/
theorem secretMapping_unique_four_fields (ctx : GhostContext) :
    ((buildGraph ctx).manifests.filter
        (fun m => m.id == NodeId.ghostExternalSecret) =
      [ghost_external_secret (deployExternalSecretsEnabled ctx)]) ∧
    ∀ b : Bool, ∃ data,
      (ghost_external_secret b).payload =
        Payload.externalSecret "secretsManager" data ∧
      data.map (fun e => e.name) = ["password", "dbname", "host", "username"] ∧
      data.map (fun e => e.key) = List.replicate 4 ghost_rds_secret_name := by
  constructor
  · cases he : deployExternalSecretsEnabled ctx <;>
      cases hs : deploySgpEnabled ctx <;>
        simp only [buildGraph, he, hs] <;> decide
  · intro b
    exact ⟨_, rfl, by decide, by decide⟩

/-- C5: for every flag combination the deployment manifest declares exactly
one dependency edge (on the secret-mapping node), while the service and
ingress manifests declare none. -/
theorem deployment_depends_service_ingress_independent (ctx : GhostContext) :
    (buildGraph ctx).manifests.filter
        (fun m => m.id == NodeId.ghostDeployment) = [ghost_deployment_manifest] ∧
    ghost_deployment_manifest.deps = [NodeId.ghostExternalSecret] ∧
    (buildGraph ctx).manifests.filter
        (fun m => m.id == NodeId.ghostService) = [ghost_service_manifest] ∧
    ghost_service_manifest.deps = [] ∧
    (buildGraph ctx).manifests.filter
        (fun m => m.id == NodeId.ghostIngress) = [ghost_ingress_manifest] ∧
    ghost_ingress_manifest.deps = [] := by
  refine ⟨?_, rfl, ?_, rfl, ?_, rfl⟩ <;>
    (cases he : deployExternalSecretsEnabled ctx <;>
      cases hs : deploySgpEnabled ctx <;>
        simp only [buildGraph, he, hs] <;> decide)

/-- C6 counterexample: with the `account` context key absent and both account
environment variables set, the claim predicts fallback to the deploy
variable (`Except.ok "111111111111"`); the program instead aborts, because
`try_get_context("account")` returns `None` and `None.strip()` raises before
any environment variable is consulted (line 219). -/
theorem missing_account_context_aborts_cex :
    resolveSetting none (some "111111111111") (some "222222222222") =
      Except.error ResolveError.attributeError ∧
    resolveSetting none (some "111111111111") (some "222222222222") ≠
      Except.ok "111111111111" := by
  exact ⟨rfl, by simp [resolveSetting]⟩

/-- C6 amended: a missing context value aborts immediately (no environment
fallback); a non-blank context value is used as-is; a blank context value
falls back to the deploy variable when the default variable is also set, to
the default variable when only it is set, and aborts when the default
variable is absent — even if the deploy variable is set, since the default
argument of `os.environ.get` is evaluated eagerly (lines 222-223).  The run
produces a resource graph exactly when both resolutions succeed. -/
theorem account_region_resolution_amended (ctx : GhostContext) (env : Environ) :
    (ctx.account = none →
      runApp ctx env = Except.error ResolveError.attributeError) ∧
    (∀ v : String, pyStrip v ≠ "" →
      resolveSetting (some v) env.CDK_DEPLOY_ACCOUNT env.CDK_DEFAULT_ACCOUNT =
        Except.ok v) ∧
    (∀ v : String, pyStrip v = "" →
      resolveSetting (some v) env.CDK_DEPLOY_ACCOUNT none =
        Except.error ResolveError.keyError) ∧
    (∀ v a : String, pyStrip v = "" →
      resolveSetting (some v) env.CDK_DEPLOY_ACCOUNT (some a) =
        Except.ok (env.CDK_DEPLOY_ACCOUNT.getD a)) ∧
    ((∃ g, runApp ctx env = Except.ok g) ↔
      (∃ acct, resolveSetting ctx.account env.CDK_DEPLOY_ACCOUNT
          env.CDK_DEFAULT_ACCOUNT = Except.ok acct) ∧
      (∃ reg, resolveSetting ctx.region env.CDK_DEPLOY_REGION
          env.CDK_DEFAULT_REGION = Except.ok reg)) ∧
    (∀ g, runApp ctx env = Except.ok g → g = buildGraph ctx) := by
  refine ⟨?_, ?_, ?_, ?_, ?_, ?_⟩
  · intro h
    simp [runApp, resolveSetting, h]
  · intro v hv
    simp [resolveSetting, hv]
  · intro v hv
    simp [resolveSetting, hv]
  · intro v a hv
    cases hd : env.CDK_DEPLOY_ACCOUNT <;> simp [resolveSetting, hv, hd]
  · rcases h1 : resolveSetting ctx.account env.CDK_DEPLOY_ACCOUNT
        env.CDK_DEFAULT_ACCOUNT with e1 | a1 <;>
      rcases h2 : resolveSetting ctx.region env.CDK_DEPLOY_REGION
          env.CDK_DEFAULT_REGION with e2 | a2 <;>
        simp [runApp, h1, h2]
  · intro g hg
    rcases h1 : resolveSetting ctx.account env.CDK_DEPLOY_ACCOUNT
        env.CDK_DEFAULT_ACCOUNT with e1 | a1 <;>
      rcases h2 : resolveSetting ctx.region env.CDK_DEPLOY_REGION
          env.CDK_DEFAULT_REGION with e2 | a2
    all_goals simp [runApp, h1, h2] at hg
    exact hg.symm

/-- C6 amended, instantiated: a missing `account` key aborts even with every
environment variable set, and a blank `account` value resolves to the deploy
variable when both variables are set. -/
theorem account_region_resolution_amended_witness :
    runApp ctxNoAccount envAllSet = Except.error ResolveError.attributeError ∧
    resolveSetting (some " ") (some "111111111111") (some "222222222222") =
      Except.ok "111111111111" := by
  refine ⟨(account_region_resolution_amended ctxNoAccount envAllSet).1 rfl, ?_⟩
  have h := (account_region_resolution_amended ctxNoAccount envAllSet).2.2.2.1
    " " "222222222222" (by decide)
  simpa using h

/-- C7: the flags are string-typed — each enabled branch is taken iff the
context value is exactly the string `"True"`; any other value, including
absence, `"true"` or `"1"`, takes the disabled branch. -/
theorem flags_string_typed (ctx : GhostContext) :
    (deployExternalSecretsEnabled ctx = true ↔
      ctx.deploy_external_secrets = some "True") ∧
    (deploySgpEnabled ctx = true ↔ ctx.deploy_sgp = some "True") ∧
    ((∃ m ∈ (buildGraph ctx).manifests, m.id = NodeId.externalSecretsChart) ↔
      ctx.deploy_external_secrets = some "True") ∧
    ((∃ m ∈ (buildGraph ctx).manifests, m.id = NodeId.ghostSGP) ↔
      ctx.deploy_sgp = some "True") := by
  have hflag1 : (deployExternalSecretsEnabled ctx = true) ↔
      ctx.deploy_external_secrets = some "True" := by
    simp [deployExternalSecretsEnabled]
  have hflag2 : (deploySgpEnabled ctx = true) ↔
      ctx.deploy_sgp = some "True" := by
    simp [deploySgpEnabled]
  simp only [← hflag1, ← hflag2]
  cases he : deployExternalSecretsEnabled ctx <;>
    cases hs : deploySgpEnabled ctx <;>
      simp only [buildGraph, he, hs] <;> decide

/-- C8: when `deploy_sgp` is enabled, the pod-selector manifest is present
exactly once and its security-group list holds exactly two identifiers: the
new pod security group and the cluster's kubectl security group
(lines 138-141). -/
theorem sgp_manifest_two_group_ids (ctx : GhostContext)
    (h : ctx.deploy_sgp = some "True") :
    sgp ∈ (buildGraph ctx).manifests ∧
    (buildGraph ctx).manifests.filter (fun m => m.id == NodeId.ghostSGP) =
      [sgp] ∧
    sgp.payload = Payload.sgpManifest [("app", "ghost")]
      [SGRef.ghostPodSG, SGRef.kubectlSG] := by
  have hs : deploySgpEnabled ctx = true := by
    simp [deploySgpEnabled, h]
  cases he : deployExternalSecretsEnabled ctx <;>
    simp only [buildGraph, he, hs] <;> exact ⟨by decide, by decide, rfl⟩

/-- C8, instantiated at a context enabling only the SGP feature. -/
theorem sgp_manifest_two_group_ids_witness :
    sgp ∈ (buildGraph ctxSgpOnly).manifests ∧
    (buildGraph ctxSgpOnly).manifests.filter
        (fun m => m.id == NodeId.ghostSGP) = [sgp] ∧
    sgp.payload = Payload.sgpManifest [("app", "ghost")]
      [SGRef.ghostPodSG, SGRef.kubectlSG] :=
  sgp_manifest_two_group_ids ctxSgpOnly rfl

/-- C9: when `deploy_external_secrets` is enabled, the sole access binding's
policy allows the four secrets-manager read actions on the wildcard resource
`"*"` — not scoped to the database's secret (lines 73-84). -/
theorem externalsecrets_policy_wildcard (ctx : GhostContext)
    (h : ctx.deploy_external_secrets = some "True") :
    (buildGraph ctx).accessBindings = [externalsecrets_service_account] ∧
    externalsecrets_service_account.policyStatements =
      [externalsecrets_policy_statement_json_1] ∧
    externalsecrets_policy_statement_json_1.actions =
      ["secretsmanager:GetResourcePolicy", "secretsmanager:GetSecretValue",
       "secretsmanager:DescribeSecret",
       "secretsmanager:ListSecretVersionIds"] ∧
    externalsecrets_policy_statement_json_1.resources = ["*"] := by
  have hext : deployExternalSecretsEnabled ctx = true := by
    simp [deployExternalSecretsEnabled, h]
  cases hs : deploySgpEnabled ctx <;>
    simp only [buildGraph, hext, hs] <;> exact ⟨rfl, rfl, rfl, rfl⟩

/-- C9, instantiated at a context enabling only the external-secrets
feature. -/
theorem externalsecrets_policy_wildcard_witness :
    (buildGraph ctxExtOnly).accessBindings = [externalsecrets_service_account] ∧
    externalsecrets_service_account.policyStatements =
      [externalsecrets_policy_statement_json_1] ∧
    externalsecrets_policy_statement_json_1.actions =
      ["secretsmanager:GetResourcePolicy", "secretsmanager:GetSecretValue",
       "secretsmanager:DescribeSecret",
       "secretsmanager:ListSecretVersionIds"] ∧
    externalsecrets_policy_statement_json_1.resources = ["*"] :=
  externalsecrets_policy_wildcard ctxExtOnly rfl

/-- C10: for every flag combination exactly one DatabaseNode is created, with
deletion protection off, removal policy destroy, single-AZ, 20 units of
storage, MySQL 8.0.25, username `root`, database name `ghost`, and exactly
one security group. -/
theorem database_node_fixed_attributes (ctx : GhostContext) :
    (buildGraph ctx).databases = [ghost_rds] ∧
    ghost_rds.deletionProtection = false ∧
    ghost_rds.removalPolicy = RemovalPolicy.destroy ∧
    ghost_rds.multiAz = false ∧
    ghost_rds.allocatedStorage = 20 ∧
    ghost_rds.engineVersion = "8.0.25" ∧
    ghost_rds.username = "root" ∧
    ghost_rds.databaseName = "ghost" ∧
    ghost_rds.securityGroups = [SGRef.ghostDbSG] :=
  ⟨rfl, rfl, rfl, rfl, rfl, rfl, rfl, rfl, rfl⟩

end GhostCdk
